import Mathlib

/-!
Verification of the khulnasoft-ci CLI test driver (`cli_driver.py`).

This file shallowly embeds the test-orchestration core of the driver:
the result ledger (the four pass/fail buckets), the outcome classifier
(`log_results_simple`, `log_explicit_failure`), the summary exit decision
(`log_results_summary`), and the classification logic of the scenario
functions the claims touch (`account_del`, `account_list`, `image_del`,
`evaluate_check`, `analysis_archive_images_add`, `subscription_activate`,
`registry_add`, `system_feeds_delete`).  External subprocess invocations
are modelled by an explicit outcome datatype (`Invocation`): exit code 0
versus `subprocess.CalledProcessError` versus any other exception, with
the stdout payload given as an already-decoded JSON value or a decode
failure (mirroring whether `json.loads` succeeds or raises).
-/

namespace CliDriver

/-- A decoded JSON value, as produced by `json.loads`.  Python `None` is
`null`; numbers are modelled as integers (the payload fields the driver
reads, such as `httpcode`, are integral). -/
inductive JValue where
  | str (s : String)
  | num (n : Int)
  | bool (b : Bool)
  | null
  | arr (elems : List JValue)
  | obj (fields : List (String × JValue))

mutual

/-- Structural equality of decoded JSON values, modelling Python `==` on
the payload values the driver compares (strings, integers, booleans,
`None`, lists, dicts). -/
def JValue.pyEq : JValue → JValue → Bool
  | .str a, .str b => a == b
  | .num a, .num b => a == b
  | .bool a, .bool b => a == b
  | .null, .null => true
  | .arr a, .arr b => JValue.pyEqList a b
  | .obj a, .obj b => JValue.pyEqFields a b
  | _, _ => false

/-- Elementwise Python `==` on decoded JSON lists. -/
def JValue.pyEqList : List JValue → List JValue → Bool
  | [], [] => true
  | a :: as, b :: bs => JValue.pyEq a b && JValue.pyEqList as bs
  | _, _ => false

/-- Itemwise Python `==` on decoded JSON dicts (in insertion order, as
`json.loads` builds them). -/
def JValue.pyEqFields : List (String × JValue) → List (String × JValue) → Bool
  | [], [] => true
  | (ka, va) :: as, (kb, vb) :: bs =>
    (ka == kb) && JValue.pyEq va vb && JValue.pyEqFields as bs
  | _, _ => false

end

/-- `JValue.pyEqList` agrees with equality, given that `JValue.pyEq`
agrees with equality on the elements of the left list. -/
theorem JValue.pyEqList_iff (as bs : List JValue)
    (h : ∀ a ∈ as, ∀ b, JValue.pyEq a b = true ↔ a = b) :
    JValue.pyEqList as bs = true ↔ as = bs := by
  induction as generalizing bs with
  | nil => cases bs <;> simp [JValue.pyEqList]
  | cons a as ih =>
    cases bs with
    | nil => simp [JValue.pyEqList]
    | cons b bs =>
      simp [JValue.pyEqList, h a (List.mem_cons_self a as) b,
        ih bs (fun x hx => h x (List.mem_cons_of_mem a hx))]

/-- `JValue.pyEqFields` agrees with equality, given that `JValue.pyEq`
agrees with equality on the values of the left item list. -/
theorem JValue.pyEqFields_iff (as bs : List (String × JValue))
    (h : ∀ kv ∈ as, ∀ b, JValue.pyEq kv.2 b = true ↔ kv.2 = b) :
    JValue.pyEqFields as bs = true ↔ as = bs := by
  induction as generalizing bs with
  | nil => cases bs <;> simp [JValue.pyEqFields]
  | cons a as ih =>
    obtain ⟨ka, va⟩ := a
    cases bs with
    | nil => simp [JValue.pyEqFields]
    | cons b bs =>
      obtain ⟨kb, vb⟩ := b
      simp [JValue.pyEqFields, Prod.ext_iff,
        h (ka, va) (List.mem_cons_self (ka, va) as) vb,
        ih bs (fun x hx => h x (List.mem_cons_of_mem (ka, va) hx)), and_assoc]

/-- `JValue.pyEq` decides equality of decoded JSON values. -/
theorem JValue.pyEq_iff (a b : JValue) : JValue.pyEq a b = true ↔ a = b := by
  have H : ∀ (n : Nat) (a : JValue), sizeOf a ≤ n →
      ∀ b, JValue.pyEq a b = true ↔ a = b := by
    intro n
    induction n with
    | zero => intro a ha; cases a <;> simp at ha
    | succ n ih =>
      intro a ha b
      cases a with
      | str s => cases b <;> simp [JValue.pyEq]
      | num m => cases b <;> simp [JValue.pyEq]
      | bool x => cases b <;> simp [JValue.pyEq]
      | null => cases b <;> simp [JValue.pyEq]
      | arr as =>
        cases b with
        | arr bs =>
          simp only [JValue.pyEq, JValue.arr.injEq]
          refine JValue.pyEqList_iff as bs (fun x hx b' => ih x ?_ b')
          have hlt := List.sizeOf_lt_of_mem hx
          simp only [JValue.arr.sizeOf_spec] at ha
          omega
        | str _ => simp [JValue.pyEq]
        | num _ => simp [JValue.pyEq]
        | bool _ => simp [JValue.pyEq]
        | null => simp [JValue.pyEq]
        | obj _ => simp [JValue.pyEq]
      | obj fs =>
        cases b with
        | obj gs =>
          simp only [JValue.pyEq, JValue.obj.injEq]
          refine JValue.pyEqFields_iff fs gs (fun x hx b' => ih x.2 ?_ b')
          have hlt := List.sizeOf_lt_of_mem hx
          obtain ⟨k, v⟩ := x
          simp only [JValue.obj.sizeOf_spec] at ha
          simp only [Prod.mk.sizeOf_spec] at hlt
          change sizeOf v ≤ n
          omega
        | str _ => simp [JValue.pyEq]
        | num _ => simp [JValue.pyEq]
        | bool _ => simp [JValue.pyEq]
        | null => simp [JValue.pyEq]
        | arr _ => simp [JValue.pyEq]
  exact H (sizeOf a) a (Nat.le_refl _) b

instance : DecidableEq JValue := fun a b =>
  decidable_of_iff (JValue.pyEq a b = true) (JValue.pyEq_iff a b)

/-- Python `dict.get(key)`: `some` of the value (or `null` for a missing
key) when the receiver is a dict, `none` when the receiver is not a dict
(in Python, `.get` on a non-dict raises `AttributeError`). -/
def JValue.dictGet : JValue → String → Option JValue
  | .obj fields, key =>
    match fields.lookup key with
    | some v => some v
    | none => some .null
  | _, _ => none

/-- Python subscripting `v[k]` with a string key: defined only on dicts
holding the key (otherwise Python raises `TypeError`/`KeyError`). -/
def JValue.sub : JValue → String → Option JValue
  | .obj fields, key => fields.lookup key
  | _, _ => none

/-- Python subscripting `v[0]`: defined only on non-empty lists
(the driver only indexes decoded JSON arrays). -/
def JValue.index0 : JValue → Option JValue
  | .arr (e :: _) => some e
  | _ => none

/-- Python `len(v)`: defined on strings, lists and dicts, `none` (a
`TypeError`) otherwise. -/
def JValue.pyLen : JValue → Option Nat
  | .str s => some s.length
  | .arr es => some es.length
  | .obj fs => some fs.length
  | _ => none

/-- Python truthiness test `if not v` used on decoded payloads. -/
def JValue.pyFalsy : JValue → Bool
  | .null => true
  | .bool b => !b
  | .num n => n = 0
  | .str s => s.isEmpty
  | .arr es => es.isEmpty
  | .obj fs => fs.isEmpty

mutual

/-- Python `repr` of a decoded JSON value (used by `str` on containers). -/
def JValue.pyRepr : JValue → String
  | .str s => "'" ++ s ++ "'"
  | .num n => toString n
  | .bool b => if b then "True" else "False"
  | .null => "None"
  | .arr es => "[" ++ JValue.pyReprList es ++ "]"
  | .obj fs => "\x7b" ++ JValue.pyReprFields fs ++ "\x7d"

/-- Comma-joined `repr`s of the elements of a Python list. -/
def JValue.pyReprList : List JValue → String
  | [] => ""
  | [v] => JValue.pyRepr v
  | v :: rest => JValue.pyRepr v ++ ", " ++ JValue.pyReprList rest

/-- Comma-joined `repr`s of the items of a Python dict. -/
def JValue.pyReprFields : List (String × JValue) → String
  | [] => ""
  | [(k, v)] => "'" ++ k ++ "': " ++ JValue.pyRepr v
  | (k, v) :: rest => "'" ++ k ++ "': " ++ JValue.pyRepr v ++ ", " ++ JValue.pyReprFields rest

end

/-- Python `str` of a decoded JSON value, as interpolated by
`"...".format(...)` in log messages. -/
def JValue.pyStr : JValue → String
  | .str s => s
  | v => v.pyRepr

/-- Stdout of a finished external process, from the point of view of
`json.loads`: either it decoded to a JSON value, or decoding raised. -/
inductive Stdout where
  | json (v : JValue)
  | invalid
  deriving DecidableEq

/-- Outcome of one `subprocess.run(..., check=True, stdout=PIPE)` call:
exit code 0 (`success`), a non-zero exit raising
`subprocess.CalledProcessError` with the captured stdout (`failure`),
or any other exception (timeout, OS error, ...). -/
inductive Invocation where
  | success (out : Stdout)
  | failure (out : Stdout)
  | otherError
  deriving DecidableEq

/-- The process-wide result ledger: `positive_tests["pass"]`,
`positive_tests["fail"]`, `negative_tests["pass"]`, `negative_tests["fail"]`. -/
structure Ledger where
  positivePass : List String
  positiveFail : List String
  negativePass : List String
  negativeFail : List String
  deriving DecidableEq

/-- The ledger at interpreter start: all four buckets empty. -/
def emptyLedger : Ledger := ⟨[], [], [], []⟩

/-- Total number of records across the four buckets. -/
def totalRecords (L : Ledger) : Nat :=
  L.positivePass.length + L.positiveFail.length +
    L.negativePass.length + L.negativeFail.length

/-- The record string `"{0} - {1}".format(action, message)` appended to a bucket. -/
def record (action message : String) : String :=
  action ++ " - " ++ message

/-- `log_explicit_failure(test_type, action, message)`: append one fail
record under the declared polarity (`"positive"` versus anything else). -/
def log_explicit_failure (test_type action message : String) (L : Ledger) : Ledger :=
  if test_type = "positive" then
    { L with positiveFail := L.positiveFail ++ [record action message] }
  else
    { L with negativeFail := L.negativeFail ++ [record action message] }

/-- `log_results_simple(desired_state, state, test_type, action, message)`:
the outcome classifier.  The comparison is Python `==` on the two state
values, modelled generically over any type with decidable equality. -/
def log_results_simple {α : Type} [DecidableEq α] (desired_state state : α)
    (test_type action message : String) (L : Ledger) : Ledger :=
  if state = desired_state then
    if test_type = "positive" then
      { L with positivePass := L.positivePass ++ [record action message] }
    else
      { L with negativeFail := L.negativeFail ++ [record action message] }
  else
    if test_type = "positive" then
      { L with positiveFail := L.positiveFail ++ [record action message] }
    else
      { L with negativePass := L.negativePass ++ [record action message] }

/-- The exit-code decision of `log_results_summary`: `sys.exit(1)` when
either fail bucket is non-empty, otherwise the function returns and the
process later exits 0. -/
def log_results_summary_exitCode (L : Ledger) : Nat :=
  if L.positiveFail.length > 0 then 1
  else if L.negativeFail.length > 0 then 1
  else 0

/-- C1: for every desired_state, state and polarity, `log_results_simple`
files its record per the four-case truth table: on `state = desired_state`
a positive test files one positive-pass record and a negative test files
one negative-fail record; on `state ≠ desired_state` a positive test files
one positive-fail record and a negative test files one negative-pass record. -/
theorem classifier_truth_table {α : Type} [DecidableEq α] (d s : α)
    (a m : String) (L : Ledger) :
    (s = d → log_results_simple d s "positive" a m L =
      { L with positivePass := L.positivePass ++ [record a m] }) ∧
    (s = d → log_results_simple d s "negative" a m L =
      { L with negativeFail := L.negativeFail ++ [record a m] }) ∧
    (s ≠ d → log_results_simple d s "positive" a m L =
      { L with positiveFail := L.positiveFail ++ [record a m] }) ∧
    (s ≠ d → log_results_simple d s "negative" a m L =
      { L with negativePass := L.negativePass ++ [record a m] }) := by
  refine ⟨?_, ?_, ?_, ?_⟩ <;> intro h <;>
    unfold log_results_simple
  · rw [if_pos h, if_pos rfl]
  · rw [if_pos h, if_neg (by decide)]
  · rw [if_neg h, if_pos rfl]
  · rw [if_neg h, if_neg (by decide)]

/-- C1 witness: the truth table evaluated at concrete states, one
equal-state case and one differing-state case. -/
theorem classifier_truth_table_witness :
    log_results_simple "enabled" "enabled" "positive" "account_add" "msg" emptyLedger =
      { emptyLedger with positivePass := emptyLedger.positivePass ++ [record "account_add" "msg"] } ∧
    log_results_simple "deleting" "enabled" "negative" "account_del" "msg" emptyLedger =
      { emptyLedger with negativePass := emptyLedger.negativePass ++ [record "account_del" "msg"] } :=
  ⟨(classifier_truth_table "enabled" "enabled" "account_add" "msg" emptyLedger).1 rfl,
   (classifier_truth_table "deleting" "enabled" "account_del" "msg" emptyLedger).2.2.2 (by decide)⟩

/-- C2: the summary exit code is 1 iff the positive-fail bucket or the
negative-fail bucket is non-empty, and 0 iff both fail buckets are empty —
independently of the pass buckets (and hence of skipped checks, which
touch no bucket at all). -/
theorem summary_exitCode_iff (L : Ledger) :
    (log_results_summary_exitCode L = 1 ↔
      (L.positiveFail ≠ [] ∨ L.negativeFail ≠ [])) ∧
    (log_results_summary_exitCode L = 0 ↔
      (L.positiveFail = [] ∧ L.negativeFail = [])) := by
  obtain ⟨pp, pf, np, nf⟩ := L
  unfold log_results_summary_exitCode
  cases pf <;> cases nf <;> simp

/-- Outcome of running one scenario function: it either returns normally
with the updated ledger, or an exception escapes it (carrying the ledger
as it stood, which the escape leaves untouched). -/
inductive PyResult where
  | ok (L : Ledger)
  | raised (L : Ledger)
  deriving DecidableEq

/-- The rejection message `account_del` anticipates on a structured failure. -/
def invalidStateChangeMsg : String :=
  "Invalid account state change requested. Cannot go from state enabled to state deleting"

/-- `account_del(context, name, test_type)`: classification logic, given
the outcome `res` of the `account del` subprocess call.  On success the
extracted `state` field is classified against `"deleting"`; on a
`CalledProcessError` whose decoded message matches the anticipated
rejection, the synthesized pair `("deleting", "enabled")` is classified;
on a non-matching decoded message nothing is recorded (the inner `if` has
no `else`); a decode failure of `e.stdout` raises inside the handler. -/
def account_del (name test_type : String) (res : Invocation) (L : Ledger) : PyResult :=
  match res with
  | .success (.json v) =>
    match v.dictGet "state" with
    | some state =>
      .ok (log_results_simple (JValue.str "deleting") state test_type "account_del"
        ("account: " ++ name ++ "; state: " ++ state.pyStr) L)
    | none =>
      .ok (log_explicit_failure test_type "account_del"
        ("failed to delete account " ++ name) L)
  | .success .invalid =>
    .ok (log_explicit_failure test_type "account_del"
      ("failed to delete account " ++ name) L)
  | .failure (.json v) =>
    match v.dictGet "message" with
    | some m =>
      if m = JValue.str invalidStateChangeMsg then
        .ok (log_results_simple "deleting" "enabled" test_type "account_del"
          ("could not delete account: " ++ name) L)
      else
        .ok L
    | none => .raised L
  | .failure .invalid => .raised L
  | .otherError =>
    .ok (log_explicit_failure test_type "account_del"
      ("failed to delete account " ++ name) L)

/-- `account_list(context, account_override, test_type)`: classification
logic, given the outcome `res` of the `account list` subprocess call.
(The preparatory `account_add`/`account_user_add` calls of the override
branch run with `log=False` and touch no bucket, so they do not appear.)
On a `CalledProcessError` with decodable stdout and `account_override`
false, the handler records nothing. -/
def account_list (account_override : Bool) (test_type : String)
    (res : Invocation) (L : Ledger) : PyResult :=
  match res with
  | .success (.json v) =>
    match v.pyLen with
    | some n =>
      .ok (log_results_simple "ok" "ok" test_type "account_list"
        (toString n ++ " accounts found") L)
    | none =>
      .ok (log_explicit_failure test_type "account_list" "failed to list accounts" L)
  | .success .invalid =>
    .ok (log_explicit_failure test_type "account_list" "failed to list accounts" L)
  | .failure (.json v) =>
    if account_override then
      if v = JValue.str "Unauthorized" then
        .ok (log_results_simple "ok" "notok" "negative" "account_list"
          "non-admin user could not list accounts" L)
      else
        match v.dictGet "httpcode" with
        | some code =>
          if code = JValue.num 403 then
            .ok (log_results_simple "ok" "notok" "negative" "account_list"
              "non-admin user could not list accounts" L)
          else
            .ok (log_explicit_failure test_type "account_list"
              "failed to list accounts" L)
        | none => .raised L
    else
      .ok L
  | .failure .invalid => .raised L
  | .otherError =>
    .ok (log_explicit_failure test_type "account_list" "failed to list accounts" L)

/-- `subscription_activate(context, test_type)`: `sub` is what the helper
`subscription_get_one` returned (`none` models its `None` return after an
internal error — the subscript `sub["subscription_key"]` then raises a
`TypeError` outside any `try`). -/
def subscription_activate (sub : Option JValue) (test_type : String)
    (res : Invocation) (L : Ledger) : PyResult :=
  match sub with
  | none => .raised L
  | some s =>
    match s.sub "subscription_key" with
    | none => .raised L
    | some subKey =>
      match s.sub "subscription_type" with
      | none => .raised L
      | some subType =>
        match res with
        | .success (.json v) =>
          match v.index0 with
          | some e0 =>
            match e0.sub "active" with
            | some subActive =>
              .ok (log_results_simple (JValue.bool true) subActive test_type
                "subscription_activate"
                ("subscription " ++ subType.pyStr ++ "/" ++ subKey.pyStr ++
                  " should be active") L)
            | none =>
              .ok (log_explicit_failure test_type "subscription_activate"
                "failed to activate subscription" L)
          | none =>
            .ok (log_explicit_failure test_type "subscription_activate"
              "failed to activate subscription" L)
        | .success .invalid =>
          .ok (log_explicit_failure test_type "subscription_activate"
            "failed to activate subscription" L)
        | .failure _ =>
          .ok (log_explicit_failure test_type "subscription_activate"
            "failed to activate subscription" L)
        | .otherError =>
          .ok (log_explicit_failure test_type "subscription_activate"
            "failed to activate subscription" L)

/-- `registry_add(context)`: classification logic, given the outcome of
the `registry add` subprocess call (`reg` is the `REGISTRY_URL`
environment value).  The handler's unmatched branch references the
undefined name `test_type`, so it raises a `NameError`; its except clause
has no branch for non-`CalledProcessError` exceptions, which are
therefore silently swallowed with no record. -/
def registry_add (reg : String) (res : Invocation) (L : Ledger) : PyResult :=
  match res with
  | .success (.json v) =>
    match v.index0 with
    | some e0 =>
      match e0.sub "registry_name", e0.sub "registry_type", e0.sub "registry_user" with
      | some regName, some _, some _ =>
        .ok (log_results_simple "ok" "ok" "positive" "registry_add"
          ("added registry " ++ regName.pyStr) L)
      | _, _, _ => .ok L
    | none => .ok L
  | .success .invalid => .ok L
  | .failure (.json v) =>
    match v.dictGet "message" with
    | some m =>
      if m = JValue.str "registry already exists in DB" then
        .ok (log_results_simple "ok" "notok" "negative" "registry_add"
          ("registry " ++ reg ++ " already exists") L)
      else
        .raised L
    | none => .raised L
  | .failure .invalid => .raised L
  | .otherError => .ok L

/-- C3 counterexample: `account_del` on a completed check — a structured
failure whose decoded message does not match the anticipated rejection —
returns with the ledger unchanged: zero records are filed, not exactly one. -/
theorem account_del_unmatched_drops_record :
    account_del "acct" "positive"
        (.failure (.json (.obj [("message", .str "boom")]))) emptyLedger =
      .ok emptyLedger ∧
    totalRecords emptyLedger = 0 := by
  decide

/-- C3 (amended): each call to `log_results_simple` or
`log_explicit_failure` appends exactly one record (to exactly one bucket),
but not every completed check reaches them: `account_del` on a structured
failure with a non-matching message, and `account_list` on a structured
failure with `account_override` false, return with zero records filed. -/
theorem classification_exactly_one_record {α : Type} [DecidableEq α]
    (d s : α) (t a m name : String) (L : Ledger) :
    totalRecords (log_results_simple d s t a m L) = totalRecords L + 1 ∧
    totalRecords (log_explicit_failure t a m L) = totalRecords L + 1 ∧
    (∀ msg, msg ≠ invalidStateChangeMsg →
      account_del name t (.failure (.json (.obj [("message", .str msg)]))) L = .ok L) ∧
    (∀ v, account_list false t (.failure (.json v)) L = .ok L) := by
  refine ⟨?_, ?_, ?_, ?_⟩
  · unfold log_results_simple totalRecords
    split <;> split <;> simp <;> omega
  · unfold log_explicit_failure totalRecords
    split <;> simp <;> omega
  · intro msg hmsg
    simp [account_del, JValue.dictGet, hmsg]
  · intro v
    rfl

/-- C3 witness: the amended statement evaluated at concrete inputs. -/
theorem classification_exactly_one_record_witness :
    totalRecords (log_results_simple "ok" "ok" "positive" "act" "msg" emptyLedger) =
      totalRecords emptyLedger + 1 ∧
    account_del "acct" "positive"
        (.failure (.json (.obj [("message", .str "boom")]))) emptyLedger =
      .ok emptyLedger :=
  ⟨(classification_exactly_one_record "ok" "ok" "positive" "act" "msg" "acct" emptyLedger).1,
   (classification_exactly_one_record (α := String) "ok" "ok" "positive" "act" "msg" "acct"
      emptyLedger).2.2.1 "boom" (by decide)⟩

/-- C4 counterexample: a positive `account_del` check rejected with the
anticipated structured message is recorded as a positive-fail, not a
positive-pass — the synthesized state `"enabled"` differs from the desired
state `"deleting"`, so the truth table files the fail bucket. -/
theorem account_del_matched_rejection_is_posfail :
    account_del "acct" "positive"
        (.failure (.json (.obj [("message", .str invalidStateChangeMsg)]))) emptyLedger =
      .ok ⟨[], [record "account_del" "could not delete account: acct"], [], []⟩ := by
  decide

/-- C4 (amended): on the matched expected-failure path, `account_del`
classifies the synthesized state `"enabled"` against the desired state
`"deleting"`; since they differ, a positive test files one positive-fail
record and a negative test (the polarity actually used at this point of
the account scenario) files one negative-pass record. -/
theorem account_del_matched_rejection (name : String) (L : Ledger) :
    account_del name "positive"
        (.failure (.json (.obj [("message", .str invalidStateChangeMsg)]))) L =
      .ok { L with positiveFail :=
        L.positiveFail ++ [record "account_del" ("could not delete account: " ++ name)] } ∧
    account_del name "negative"
        (.failure (.json (.obj [("message", .str invalidStateChangeMsg)]))) L =
      .ok { L with negativePass :=
        L.negativePass ++ [record "account_del" ("could not delete account: " ++ name)] } := by
  constructor <;>
    simp [account_del, JValue.dictGet, log_results_simple, invalidStateChangeMsg]

/-- C5: uncaught exceptions escape scenario functions — `account_del`
raises a `json.JSONDecodeError` inside its own handler when the
`CalledProcessError`'s stdout is not valid JSON; `subscription_activate`
raises a `TypeError` when `subscription_get_one` returned no value; and
`registry_add` raises a `NameError` (undefined `test_type`) on a
structured failure with an unmatched message. -/
theorem scenario_exception_escapes :
    account_del "acct" "positive" (.failure .invalid) emptyLedger =
      .raised emptyLedger ∧
    subscription_activate none "positive" (.success (.json (.arr []))) emptyLedger =
      .raised emptyLedger ∧
    registry_add "myreg" (.failure (.json (.obj [("message", .str "boom")]))) emptyLedger =
      .raised emptyLedger := by
  decide

/-- C6 counterexample: the invoker reports a failure the scenario did not
anticipate — `account_list` (declared polarity `"positive"`, override off)
gets a structured failure — yet no explicit-failure record is filed: the
ledger is returned unchanged. -/
theorem account_list_unexpected_failure_drops_record :
    account_list false "positive"
        (.failure (.json (.obj [("message", .str "boom"), ("httpcode", .num 500)])))
        emptyLedger =
      .ok emptyLedger := by
  decide

/-- C6 (amended): whenever `log_explicit_failure` is reached, exactly one
explicit-failure record is filed under the declared polarity's fail bucket
(`"positive"` to positive-fail, any other declared polarity to
negative-fail); but an unanticipated failure does not always reach it —
`account_list` with `account_override` false returns a structured failure
with zero records filed. -/
theorem explicit_failure_files_polarity_fail (t a m : String) (L : Ledger) :
    log_explicit_failure "positive" a m L =
      { L with positiveFail := L.positiveFail ++ [record a m] } ∧
    (t ≠ "positive" → log_explicit_failure t a m L =
      { L with negativeFail := L.negativeFail ++ [record a m] }) ∧
    (∀ v, account_list false t (.failure (.json v)) L = .ok L) := by
  refine ⟨?_, ?_, fun v => rfl⟩
  · unfold log_explicit_failure
    rw [if_pos rfl]
  · intro h
    unfold log_explicit_failure
    rw [if_neg h]

/-- C6 witness: the amended statement evaluated at the polarity `"negative"`. -/
theorem explicit_failure_files_polarity_fail_witness :
    log_explicit_failure "negative" "act" "msg" emptyLedger =
      { emptyLedger with negativeFail :=
        emptyLedger.negativeFail ++ [record "act" "msg"] } :=
  (explicit_failure_files_polarity_fail "negative" "act" "msg" emptyLedger).2.1 (by decide)

/-- Outcome of the `image wait` precondition subprocess call guarding a
dependent check: the call returned (readiness), or it raised (poll
failure or timeout). -/
inductive WaitOutcome where
  | ready
  | failedWait
  deriving DecidableEq

/-- The rejection message `image_del` anticipates on a structured failure. -/
def latestTagMsg : String :=
  "cannot delete image that is the latest of its tags, and has active subscription"

/-- `image_del(context, force, test_type)`: the scenario first runs the
`image wait` precondition (returning with no record if it raises), then
classifies the delete outcome; a structured failure with the anticipated
message is an explicit failure under `--force` and is classified
`("ok", "notok")` otherwise; an unmatched message records nothing. -/
def image_del (image : String) (force : Bool) (test_type : String)
    (wait : WaitOutcome) (res : Invocation) (L : Ledger) : PyResult :=
  match wait with
  | .failedWait => .ok L
  | .ready =>
    match res with
    | .success (.json v) =>
      match v.dictGet "status" with
      | some status =>
        .ok (log_results_simple (JValue.str "deleting") status test_type "image_del"
          ("delete image " ++ image) L)
      | none =>
        .ok (log_explicit_failure test_type "image_del" "failed to delete image" L)
    | .success .invalid =>
      .ok (log_explicit_failure test_type "image_del" "failed to delete image" L)
    | .failure (.json v) =>
      match v.dictGet "message" with
      | some m =>
        if m = JValue.str latestTagMsg then
          if force then
            .ok (log_explicit_failure test_type "image_del"
              ("could not delete image: " ++ image) L)
          else
            .ok (log_results_simple "ok" "notok" test_type "image_del"
              ("could not delete image without forcing: " ++ image ++ " (good)") L)
        else
          .ok L
      | none => .raised L
    | .failure .invalid => .raised L
    | .otherError =>
      .ok (log_explicit_failure test_type "image_del" "failed to delete image" L)

/-- `evaluate_check(context, test_type)`: gated by the `image wait`
precondition; on success an empty (falsy) payload is an explicit failure,
a non-empty payload is classified `("ok", "ok")`; every exception of the
evaluation call is merely logged, with no record. -/
def evaluate_check (image test_type : String) (wait : WaitOutcome)
    (res : Invocation) (L : Ledger) : PyResult :=
  match wait with
  | .failedWait => .ok L
  | .ready =>
    match res with
    | .success (.json v) =>
      if v.pyFalsy then
        .ok (log_explicit_failure test_type "evaluate_check"
          ("could not evaluate image " ++ image) L)
      else
        .ok (log_results_simple "ok" "ok" test_type "evaluate_check"
          ("evaluated image " ++ image) L)
    | .success .invalid => .ok L
    | .failure _ => .ok L
    | .otherError => .ok L

/-- `analysis_archive_images_add(context, test_type)`: `data` is the
outcome of the `random_image_data` step (an exception there is an explicit
failure); then the `image wait` precondition gates the archive call, whose
own exceptions are merely logged with no record. -/
def analysis_archive_images_add (test_type : String) (data : Except String String)
    (wait : WaitOutcome) (res : Invocation) (L : Ledger) : PyResult :=
  match data with
  | .error e =>
    .ok (log_explicit_failure test_type "analysis_archive_images_add" ("error " ++ e) L)
  | .ok image =>
    match wait with
    | .failedWait => .ok L
    | .ready =>
      match res with
      | .success (.json v) =>
        match v.index0 with
        | some e0 =>
          match e0.sub "status" with
          | some status =>
            .ok (log_results_simple (JValue.str "archived") status test_type
              "analysis_archive_images_add" ("archived image " ++ image) L)
          | none => .ok L
        | none => .ok L
      | .success .invalid => .ok L
      | .failure _ => .ok L
      | .otherError => .ok L

/-- C7: when the `image wait` precondition poll fails or times out (the
wait subprocess raises), each guarded scenario returns before invoking the
dependent operation: the result does not depend on the dependent
invocation at all, and the ledger comes back unchanged — zero records in
all four buckets, neither a pass nor a fail. -/
theorem wait_gate_failure_skips (image test_type data : String) (force : Bool)
    (res : Invocation) (L : Ledger) :
    image_del image force test_type .failedWait res L = .ok L ∧
    evaluate_check image test_type .failedWait res L = .ok L ∧
    analysis_archive_images_add test_type (.ok data) .failedWait res L = .ok L :=
  ⟨rfl, rfl, rfl⟩

/-- C9: every `test_type` other than exactly `"positive"` is filed by both
`log_results_simple` and `log_explicit_failure` exactly as `"negative"`
would be — polarity is decided solely by string equality with
`"positive"`, and no `test_type` value is rejected (both functions are
total on all strings). -/
theorem nonpositive_polarity_is_negative {α : Type} [DecidableEq α]
    (d s : α) (t a m : String) (L : Ledger) (h : t ≠ "positive") :
    log_results_simple d s t a m L = log_results_simple d s "negative" a m L ∧
    log_explicit_failure t a m L = log_explicit_failure "negative" a m L := by
  refine ⟨?_, ?_⟩ <;>
    simp only [log_results_simple, log_explicit_failure, if_neg h,
      if_neg (show ("negative" : String) ≠ "positive" by decide)]

/-- C9 witness: the misspelt polarity `"Negative"` is filed as `"negative"`. -/
theorem nonpositive_polarity_is_negative_witness :
    log_results_simple "ok" "notok" "Negative" "act" "msg" emptyLedger =
      log_results_simple "ok" "notok" "negative" "act" "msg" emptyLedger ∧
    log_explicit_failure "Negative" "act" "msg" emptyLedger =
      log_explicit_failure "negative" "act" "msg" emptyLedger :=
  nonpositive_polarity_is_negative "ok" "notok" "Negative" "act" "msg" emptyLedger
    (by decide)

/-- Modelled from the spec: the Poller `waitUntilReady(checkFn, timeout,
interval)` of spec section 4.3 is implemented inside the external CLI's
`image wait` / `system wait` subcommands, which `image_wait` and
`system_wait` merely invoke with `--timeout` and `--interval`; its loop is
not part of this repository's source.  `check k` is the readiness signal
of attempt `k` (attempts numbered from 0) and `elapsed` is a fake clock.
One attempt is made immediately; while not ready, the poller sleeps
`interval` and retries unless the cumulative elapsed time would exceed
`timeout`, in which case it reports not-ready.  The result pairs the
readiness flag with the number of attempts made. -/
def pollLoop (check : Nat → Bool) (timeout interval : Nat) (k elapsed : Nat) :
    Bool × Nat :=
  if check k then (true, k + 1)
  else if h : 0 < interval ∧ elapsed + interval ≤ timeout then
    pollLoop check timeout interval (k + 1) (elapsed + interval)
  else (false, k + 1)
termination_by timeout - elapsed
decreasing_by simp_wf; omega

/-- Modelled from the spec: `waitUntilReady` with a non-negative timeout
starts the poll loop at attempt 0, elapsed time 0. -/
def waitUntilReady (check : Nat → Bool) (timeout interval : Nat) : Bool × Nat :=
  pollLoop check timeout interval 0 0

/-- Modelled from the spec: a negative timeout means retry indefinitely.
The unbounded loop is run on explicit fuel; it returns `some` of the
attempt count only when a check succeeded, and exhausted fuel (`none`)
means the loop is still running — there is no not-ready exit. -/
def pollForever (check : Nat → Bool) : Nat → Nat → Option Nat
  | 0, _ => none
  | fuel + 1, k => if check k then some (k + 1) else pollForever check fuel (k + 1)

/-- The poll loop starting at attempt `k` makes at least one attempt, and
either stops at that very attempt or the clock time of its last attempt,
`(attempts - (k+1)) * interval + elapsed`, is at most the timeout. -/
theorem pollLoop_bound (check : Nat → Bool) (T I : Nat) :
    ∀ (n k e : Nat), T - e ≤ n →
      k + 1 ≤ (pollLoop check T I k e).2 ∧
      ((pollLoop check T I k e).2 = k + 1 ∨
        ((pollLoop check T I k e).2 - (k + 1)) * I + e ≤ T) := by
  intro n
  induction n with
  | zero =>
    intro k e hn
    rw [pollLoop.eq_def]
    split
    · simp
    · split
      · next hguard => exact absurd hguard (by omega)
      · simp
  | succ n ih =>
    intro k e hn
    rw [pollLoop.eq_def]
    split
    · simp
    · split
      · next hguard =>
        obtain ⟨hI, hle⟩ := hguard
        obtain ⟨hge, hdisj⟩ := ih (k + 1) (e + I) (by omega)
        refine ⟨by omega, Or.inr ?_⟩
        rcases hdisj with heq | hb
        · have h1 : (pollLoop check T I (k + 1) (e + I)).2 - (k + 1) = 1 := by omega
          rw [h1, one_mul]
          omega
        · have h1 : (pollLoop check T I (k + 1) (e + I)).2 - (k + 1) =
              ((pollLoop check T I (k + 1) (e + I)).2 - (k + 1 + 1)) + 1 := by omega
          rw [h1, Nat.succ_mul]
          omega
      · simp

/-- The unbounded poll loop only ever returns after a successful check:
the readiness signal of its final attempt was `true`. -/
theorem pollForever_some_ready (check : Nat → Bool) :
    ∀ (fuel k n : Nat), pollForever check fuel k = some n → check (n - 1) = true := by
  intro fuel
  induction fuel with
  | zero => intro k n h; exact absurd h (by simp [pollForever])
  | succ fuel ih =>
    intro k n h
    simp only [pollForever] at h
    by_cases hc : check k
    · rw [if_pos hc] at h
      obtain rfl : k + 1 = n := by simpa using h
      simpa using hc
    · rw [if_neg hc] at h
      exact ih (k + 1) n h

/-- C8: with timeout 0 the poller makes exactly one readiness attempt;
with a positive interval `I` and timeout `T` the clock time of its last
attempt, `(attempts - 1) * I`, never exceeds `T` (so the elapsed time at
exit exceeds `T` by at most one interval) and it makes at most
`ceil(T/I) + 1 = (T + I - 1)/I + 1` attempts; and in indefinite mode
(negative timeout) it never returns not-ready: whenever it returns, the
readiness check of its final attempt signalled ready. -/
theorem poller_timeout_semantics :
    (∀ (check : Nat → Bool) (interval : Nat),
      (waitUntilReady check 0 interval).2 = 1) ∧
    (∀ (check : Nat → Bool) (T I : Nat), 0 < I →
      ((waitUntilReady check T I).2 - 1) * I ≤ T ∧
      (waitUntilReady check T I).2 ≤ (T + I - 1) / I + 1) ∧
    (∀ (check : Nat → Bool) (fuel k n : Nat),
      pollForever check fuel k = some n → check (n - 1) = true) := by
  refine ⟨?_, ?_, pollForever_some_ready⟩
  · intro check interval
    unfold waitUntilReady
    rw [pollLoop.eq_def]
    split
    · rfl
    · split
      · next hguard => exact absurd hguard (by omega)
      · rfl
  · intro check T I hI
    obtain ⟨hge, hdisj⟩ := pollLoop_bound check T I (T - 0) 0 0 (Nat.le_refl _)
    have hlast : ((waitUntilReady check T I).2 - 1) * I ≤ T := by
      unfold waitUntilReady
      rcases hdisj with heq | hb
      · rw [heq]
        simp
      · simpa using hb
    refine ⟨hlast, ?_⟩
    have hdiv : (waitUntilReady check T I).2 - 1 ≤ T / I :=
      (Nat.le_div_iff_mul_le hI).2 hlast
    have hmono : T / I ≤ (T + I - 1) / I := Nat.div_le_div_right (by omega)
    omega

/-- C8 witness: the bounded-mode bound at `T = 10`, `I = 3` with a
never-ready check, and the indefinite mode at a check that becomes ready
on attempt 2 with fuel 5. -/
theorem poller_timeout_semantics_witness :
    (0 : Nat) < 3 ∧
    ((waitUntilReady (fun _ => false) 10 3).2 - 1) * 3 ≤ 10 ∧
    (waitUntilReady (fun _ => false) 10 3).2 ≤ (10 + 3 - 1) / 3 + 1 ∧
    (fun k => decide (2 ≤ k)) (3 - 1) = true :=
  ⟨by decide,
   (poller_timeout_semantics.2.1 (fun _ => false) 10 3 (by decide)).1,
   (poller_timeout_semantics.2.1 (fun _ => false) 10 3 (by decide)).2,
   poller_timeout_semantics.2.2 (fun k => decide (2 ≤ k)) 5 0 3 (by decide)⟩

/-- One group of a feed, as decoded from `system feeds list`. -/
structure FeedGroup where
  name : String
  enabled : Bool
  deriving DecidableEq

/-- One feed, as decoded from `system feeds list`. -/
structure Feed where
  name : String
  groups : List FeedGroup
  deriving DecidableEq

/-- The inner loop of `system_feeds_delete`: `for group in feed["groups"]:
if group["enabled"] == False: break`.  Returns the final value of the
Python loop variable `group`, whose value from before the loop is `g0`
(`none` when it was never bound). -/
def innerGroupLoop (g0 : Option FeedGroup) : List FeedGroup → Option FeedGroup
  | [] => g0
  | g :: gs => if g.enabled = false then some g else innerGroupLoop (some g) gs

/-- The outer loop of `system_feeds_delete`: `for feed in feeds:`.  The
inner `break` leaves only the inner loop, so the outer loop always runs to
the end of the feed list; the accumulator carries the current values of
the loop variables `(feed, group)`. -/
def outerFeedLoop (acc : Option Feed × Option FeedGroup) :
    List Feed → Option Feed × Option FeedGroup
  | [] => acc
  | f :: fs => outerFeedLoop (some f, innerGroupLoop acc.2 f.groups) fs

/-- How `system_feeds_delete` selects its target: an empty (or `None`)
feed list is an explicit failure and return; otherwise the command is
issued against `feed["name"]` / `group["name"]` as left by the loops — an
unhandled `NameError` if the loop variable `group` was never bound. -/
inductive FeedsDeleteSelection where
  | noFeeds
  | nameError
  | delete (feedName groupName : String)
  deriving DecidableEq

/-- The feed/group selection performed by `system_feeds_delete` before it
runs the `system feeds delete` command. -/
def system_feeds_delete_selection (feeds : List Feed) : FeedsDeleteSelection :=
  if feeds = [] then .noFeeds
  else
    match outerFeedLoop (none, none) feeds with
    | (some f, some g) => .delete f.name g.name
    | _ => .nameError

/-- When every group of a list is enabled, the inner loop never breaks:
it ends on the last group of the list, or keeps the incoming value for an
empty list. -/
theorem innerGroupLoop_all_enabled :
    ∀ (gs : List FeedGroup) (g0 : Option FeedGroup),
      (∀ g ∈ gs, g.enabled = true) →
      innerGroupLoop g0 gs = (gs.getLast?).elim g0 some := by
  intro gs
  induction gs with
  | nil => intro g0 h; rfl
  | cons g gs ih =>
    intro g0 h
    have hg : g.enabled = true := h g (List.mem_cons_self g gs)
    simp only [innerGroupLoop, hg]
    rw [if_neg (by simp)]
    rw [ih (some g) (fun x hx => h x (List.mem_cons_of_mem g hx))]
    cases gs with
    | nil => rfl
    | cons g' gs' =>
      rw [List.getLast?_cons_cons]
      cases hgl : (g' :: gs').getLast? with
      | none => exact absurd hgl (by simp)
      | some x => rfl

/-- With every group of every feed enabled, the loops of
`system_feeds_delete` end on the last feed, and on the last group of the
last feed's (non-empty) group list. -/
theorem outerFeedLoop_last :
    ∀ (feeds : List Feed) (fl : Feed) (gl : FeedGroup),
      feeds.getLast? = some fl → fl.groups.getLast? = some gl →
      (∀ f ∈ feeds, ∀ g ∈ f.groups, g.enabled = true) →
      ∀ acc, outerFeedLoop acc feeds = (some fl, some gl) := by
  intro feeds
  induction feeds with
  | nil => intro fl gl h; simp at h
  | cons f fs ih =>
    intro fl gl hlast hgl hen acc
    cases fs with
    | nil =>
      have hf : f = fl := by simpa using hlast
      subst hf
      simp only [outerFeedLoop]
      rw [innerGroupLoop_all_enabled f.groups acc.2 (hen f (List.mem_cons_self f [])), hgl]
      rfl
    | cons f' fs' =>
      rw [List.getLast?_cons_cons] at hlast
      exact ih fl gl hlast hgl (fun x hx => hen x (List.mem_cons_of_mem f hx))
        (some f, innerGroupLoop acc.2 f.groups)

/-- With every feed's group list empty, the loop variable `group` keeps
its incoming value (in particular, it is never bound). -/
theorem outerFeedLoop_snd_empty :
    ∀ (feeds : List Feed) (acc : Option Feed × Option FeedGroup),
      (∀ f ∈ feeds, f.groups = []) → (outerFeedLoop acc feeds).2 = acc.2 := by
  intro feeds
  induction feeds with
  | nil => intro acc h; rfl
  | cons f fs ih =>
    intro acc h
    simp only [outerFeedLoop]
    rw [h f (List.mem_cons_self f fs)]
    exact ih (some f, acc.2) (fun x hx => h x (List.mem_cons_of_mem f hx))

/-- C10 counterexample: the first feed's group list is empty, yet
`system_feeds_delete` does not raise a `NameError` — a later feed binds
the loop variable, and the delete is issued against the second feed's
group. -/
theorem feeds_delete_empty_first_feed_no_nameError :
    system_feeds_delete_selection [⟨"f1", []⟩, ⟨"f2", [⟨"g", true⟩]⟩] ≠
      FeedsDeleteSelection.nameError ∧
    system_feeds_delete_selection [⟨"f1", []⟩, ⟨"f2", [⟨"g", true⟩]⟩] =
      FeedsDeleteSelection.delete "f2" "g" := by
  decide

/-- C10 (amended): the selection falls through the nested loops reusing
the last loop variables — the inner `break` leaves only the inner loop.
If every group of every feed is enabled and the last feed has at least
one group, the delete command is nevertheless issued against the last
feed's last group (absence is not a distinguishable skip); and the
unhandled `NameError` arises exactly when `group` was never bound, i.e.
when every feed's group list is empty — not merely the first feed's. -/
theorem feeds_delete_fallthrough (feeds : List Feed) (fl : Feed) (gl : FeedGroup) :
    (feeds.getLast? = some fl → fl.groups.getLast? = some gl →
      (∀ f ∈ feeds, ∀ g ∈ f.groups, g.enabled = true) →
      system_feeds_delete_selection feeds =
        FeedsDeleteSelection.delete fl.name gl.name) ∧
    ((feeds ≠ []) → (∀ f ∈ feeds, f.groups = []) →
      system_feeds_delete_selection feeds = FeedsDeleteSelection.nameError) := by
  constructor
  · intro hlast hgl hen
    have hne : feeds ≠ [] := by
      rintro rfl
      simp at hlast
    unfold system_feeds_delete_selection
    rw [if_neg hne, outerFeedLoop_last feeds fl gl hlast hgl hen (none, none)]
  · intro hne hempty
    unfold system_feeds_delete_selection
    rw [if_neg hne]
    rcases hr : outerFeedLoop (none, none) feeds with ⟨x, y⟩
    have hy : y = none := by
      have h2 := outerFeedLoop_snd_empty feeds (none, none) hempty
      rw [hr] at h2
      exact h2
    subst hy
    cases x <;> rfl

/-- C10 witness: the amended statement evaluated at a single all-enabled
feed (delete issued against its last group) and at a single feed with an
empty group list (`NameError`). -/
theorem feeds_delete_fallthrough_witness :
    system_feeds_delete_selection [⟨"a", [⟨"g1", true⟩, ⟨"g2", true⟩]⟩] =
      FeedsDeleteSelection.delete "a" "g2" ∧
    system_feeds_delete_selection [⟨"b", []⟩] = FeedsDeleteSelection.nameError :=
  ⟨(feeds_delete_fallthrough [⟨"a", [⟨"g1", true⟩, ⟨"g2", true⟩]⟩]
      ⟨"a", [⟨"g1", true⟩, ⟨"g2", true⟩]⟩ ⟨"g2", true⟩).1 (by decide) (by decide)
      (by decide),
   (feeds_delete_fallthrough [⟨"b", []⟩] ⟨"b", []⟩ ⟨"gx", true⟩).2 (by decide)
      (by decide)⟩

end CliDriver
